import Mathlib

/-!
# util_pthread

A shallow embedding of `src/util_pthread.c` (`create_thread`, `set_thread_name`,
`release_thread`, `if_thread_exsit`) and the properties of it that the
specification states.

The four functions are straight-line code around calls into the threading
library.  The library is not part of the sources, so it is an oracle `Os` that
answers every call with a return code; each function returns, next to its C
result, the list of library calls it made, in order, with their arguments.
-/

namespace UtilPthread

/-- Constants that come from headers outside the sources (`util_pthread.h`,
`<limits.h>`, `<errno.h>`); every definition takes them as a parameter. -/
structure Consts where
  PTHREAD_STACK_MIN : Nat
  INVALID_PTHREAD_TID : Nat
  MAX_THREAD_NAME_LEN : Nat
  ESRCH : Int
  EINVAL : Int

/-- Detach states an attributes object can be asked for. -/
inductive DetachState where
  | PTHREAD_CREATE_JOINABLE
  | PTHREAD_CREATE_DETACHED
deriving DecidableEq, Repr

/-- Scheduling policies. -/
inductive SchedPolicy where
  | SCHED_OTHER
  | SCHED_FIFO
  | SCHED_RR
deriving DecidableEq, Repr

/-- One constructor per `printf` of the file, named after its format string;
the `strerror(errno)` text is the library's and is not modelled. -/
inductive Diag where
  | init_thread_attr_error
  | set_attr_detachstate_error
  | set_attr_schedpolicy_error
  | set_attr_schedparam_error
  | set_attr_stacksize_error
  | pthread_create_failed
  | task_is_not_exist (tid : Nat)
  | send_invalid_signal (tid : Nat)
deriving DecidableEq, Repr

/-- A call the module makes, with the arguments it passes.  Pointers to
functions and data (`fn`, `arg`) are plain addresses. -/
inductive Call where
  | sched_get_priority_min (policy : SchedPolicy)
  | sched_get_priority_max (policy : SchedPolicy)
  | pthread_attr_init
  | pthread_attr_setdetachstate (detachstate : DetachState)
  | pthread_attr_setschedpolicy (policy : SchedPolicy)
  | pthread_attr_setschedparam (sched_priority : Int)
  | pthread_attr_setstacksize (stacksize : Nat)
  | pthread_create (fn : Nat) (arg : Nat)
  | pthread_attr_destroy
  | pthread_self
  | prctl_PR_SET_NAME (pname : List Char)
  | pthread_kill (tid : Nat) (sig : Int)
  | pthread_cancel (tid : Nat)
  | printf (d : Diag)
deriving DecidableEq, Repr

/-- The answers of the threading library: the return value of each call as a
function of the arguments the call receives.  `pthread_create` also says which
identifier it stores through its first argument, if any. -/
structure Os where
  sched_get_priority_min : SchedPolicy → Int
  sched_get_priority_max : SchedPolicy → Int
  pthread_attr_init : Int
  pthread_attr_setdetachstate : DetachState → Int
  pthread_attr_setschedpolicy : SchedPolicy → Int
  pthread_attr_setschedparam : Int → Int
  pthread_attr_setstacksize : Nat → Int
  pthread_create : Nat → Nat → Int × Option Nat
  pthread_self : Nat
  pthread_kill : Nat → Int → Int
  pthread_cancel : Nat → Int

/-- Line 43: the value the local `_stacksize` gets. -/
def corrected_stacksize (c : Consts) (stacksize : Nat) : Nat :=
  if stacksize < c.PTHREAD_STACK_MIN then c.PTHREAD_STACK_MIN else stacksize

/-- Lines 46 to 57: the value the local `_pri` gets. -/
def corrected_pri (min_pri max_pri priority : Int) : Int :=
  if min_pri > priority then min_pri
  else if max_pri < priority then max_pri
  else priority

/-- What a call of `create_thread` leaves behind: the returned flag, the
content of `*tid` afterwards (`none` for a null `tid`), and the calls made. -/
structure CreateResult where
  ret : Bool
  tid : Option Nat
  trace : List Call
deriving DecidableEq, Repr

/-- The calls of lines 34, 35 and 61, made on every path. -/
def create_thread_head : List Call :=
  [Call.sched_get_priority_min SchedPolicy.SCHED_RR,
   Call.sched_get_priority_max SchedPolicy.SCHED_RR,
   Call.pthread_attr_init]

/-- Lines 28 to 115.  `tid` is the content of the caller's handle location
before the call, `none` when the pointer is null. -/
def create_thread (c : Consts) (os : Os) (tid : Option Nat) (stacksize : Nat)
    (priority : Int) (fn arg : Nat) : CreateResult :=
  let _tid := c.INVALID_PTHREAD_TID
  let min_pri := os.sched_get_priority_min SchedPolicy.SCHED_RR
  let max_pri := os.sched_get_priority_max SchedPolicy.SCHED_RR
  let _stacksize := corrected_stacksize c stacksize
  let _pri := corrected_pri min_pri max_pri priority
  let param_sched_priority := _pri
  let t1 := create_thread_head
  if os.pthread_attr_init < 0 then
    ⟨false, tid, t1 ++ [Call.printf Diag.init_thread_attr_error]⟩
  else
  let t2 := t1 ++ [Call.pthread_attr_setdetachstate DetachState.PTHREAD_CREATE_DETACHED]
  if os.pthread_attr_setdetachstate DetachState.PTHREAD_CREATE_DETACHED < 0 then
    ⟨false, tid, t2 ++ [Call.printf Diag.set_attr_detachstate_error, Call.pthread_attr_destroy]⟩
  else
  let t3 := t2 ++ [Call.pthread_attr_setschedpolicy SchedPolicy.SCHED_RR]
  if os.pthread_attr_setschedpolicy SchedPolicy.SCHED_RR < 0 then
    ⟨false, tid, t3 ++ [Call.printf Diag.set_attr_schedpolicy_error, Call.pthread_attr_destroy]⟩
  else
  let t4 := t3 ++ [Call.pthread_attr_setschedparam param_sched_priority]
  if os.pthread_attr_setschedparam param_sched_priority < 0 then
    ⟨false, tid, t4 ++ [Call.printf Diag.set_attr_schedparam_error, Call.pthread_attr_destroy]⟩
  else
  let t5 := t4 ++ [Call.pthread_attr_setstacksize stacksize]
  if os.pthread_attr_setstacksize stacksize < 0 then
    ⟨false, tid, t5 ++ [Call.printf Diag.set_attr_stacksize_error, Call.pthread_attr_destroy]⟩
  else
  let t6 := t5 ++ [Call.pthread_create fn arg]
  let created := os.pthread_create fn arg
  let _tid := match created.2 with
    | some t => t
    | none => _tid
  if created.1 < 0 then
    ⟨false, tid, t6 ++ [Call.printf Diag.pthread_create_failed, Call.pthread_attr_destroy]⟩
  else
  let tid := match tid with
    | some _ => some _tid
    | none => none
  ⟨true, tid, t6 ++ [Call.pthread_attr_destroy]⟩

/-- The digits of `sprintf`'s `%zu`. -/
def fmt_zu (n : Nat) : List Char := Nat.toDigits 10 n

/-- What a call of `set_thread_name` leaves behind.  `pname` is the array of
`MAX_THREAD_NAME_LEN + 1` bytes after the call; `beyond` holds the bytes that
`sprintf` stored past the last element of the array, in order. -/
structure NameResult where
  pname : List Char
  beyond : List Char
  trace : List Call
deriving DecidableEq, Repr

/-- An unbounded `sprintf(pname, ...)` producing the characters `s`: it stores
`s` and a terminating NUL from `pname[0]` on, however long `s` is.  The array
starts zeroed (line 124). -/
def sprintf (c : Consts) (s : List Char) : List Char × List Char :=
  let size := c.MAX_THREAD_NAME_LEN + 1
  let stored := s ++ [Char.ofNat 0]
  (stored.take size ++ List.replicate (size - stored.length) (Char.ofNat 0),
   stored.drop size)

/-- The string a `char *` designates: the bytes from the pointer up to the
first NUL. -/
def c_str (mem : List Char) : List Char :=
  mem.takeWhile (fun ch => ch != Char.ofNat 0)

/-- Lines 122 to 137.  `name` is the string the argument points to, without
its terminating NUL; `none` is the null pointer.  `prctl` receives the pointer
`pname`, so the string that starts at `pname[0]`. -/
def set_thread_name (c : Consts) (os : Os) (name : Option (List Char)) : NameResult :=
  let tid := os.pthread_self
  match name with
  | some name =>
    let w := sprintf c name
    ⟨w.1, w.2, [Call.pthread_self, Call.prctl_PR_SET_NAME (c_str (w.1 ++ w.2))]⟩
  | none =>
    let w := sprintf c ('p' :: fmt_zu tid)
    ⟨w.1, w.2, [Call.pthread_self, Call.prctl_PR_SET_NAME (c_str (w.1 ++ w.2))]⟩

/-- Lines 163 to 186: the returned flag and the calls made. -/
def if_thread_exsit (c : Consts) (os : Os) (tid : Nat) : Bool × List Call :=
  if c.INVALID_PTHREAD_TID = tid then
    (false, [])
  else
    let pthread_kill_err := os.pthread_kill tid 0
    let t := [Call.pthread_kill tid 0]
    if c.ESRCH = pthread_kill_err then
      (false, t ++ [Call.printf (Diag.task_is_not_exist tid)])
    else if c.EINVAL = pthread_kill_err then
      (false, t ++ [Call.printf (Diag.send_invalid_signal tid)])
    else
      (true, t)

/-- Lines 146 to 154: the returned flag and the calls made. -/
def release_thread (c : Consts) (os : Os) (tid : Nat) : Bool × List Call :=
  let alive := if_thread_exsit c os tid
  if alive.1 then
    (decide (os.pthread_cancel tid = 0), alive.2 ++ [Call.pthread_cancel tid])
  else
    (true, alive.2)

/-- Is the call a `printf`? -/
def Call.isPrintf : Call → Bool
  | Call.printf _ => true
  | _ => false

/-- Is the call a `pthread_kill`? -/
def Call.isKill : Call → Bool
  | Call.pthread_kill _ _ => true
  | _ => false

/-- Is the call a `pthread_cancel`? -/
def Call.isCancel : Call → Bool
  | Call.pthread_cancel _ => true
  | _ => false

/-- Is the call a `pthread_attr_setschedparam`? -/
def Call.isSetschedparam : Call → Bool
  | Call.pthread_attr_setschedparam _ => true
  | _ => false

/-- Is the call a `pthread_attr_setstacksize`? -/
def Call.isSetstacksize : Call → Bool
  | Call.pthread_attr_setstacksize _ => true
  | _ => false

/-- Is the call a `pthread_create`? -/
def Call.isCreate : Call → Bool
  | Call.pthread_create _ _ => true
  | _ => false

/-- Values of the constants for the concrete evaluations below: those of a
Linux system with glibc for `PTHREAD_STACK_MIN`, `ESRCH` and `EINVAL`; 0 for the
sentinel identifier and 15 characters for the longest thread name. -/
def linux : Consts where
  PTHREAD_STACK_MIN := 16384
  INVALID_PTHREAD_TID := 0
  MAX_THREAD_NAME_LEN := 15
  ESRCH := 3
  EINVAL := 22

/-- A library in which every call succeeds, priorities range over 1 to 99,
`pthread_create` stores identifier 7 and the calling thread is thread 7. -/
def os_ok : Os where
  sched_get_priority_min := fun _ => 1
  sched_get_priority_max := fun _ => 99
  pthread_attr_init := 0
  pthread_attr_setdetachstate := fun _ => 0
  pthread_attr_setschedpolicy := fun _ => 0
  pthread_attr_setschedparam := fun _ => 0
  pthread_attr_setstacksize := fun _ => 0
  pthread_create := fun _ _ => (0, some 7)
  pthread_self := 7
  pthread_kill := fun _ _ => 0
  pthread_cancel := fun _ => 0

/-- The calls up to and including the spawn, on a path that reaches it. -/
def spawn_path (os : Os) (stacksize : Nat) (priority : Int) (fn arg : Nat) : List Call :=
  create_thread_head ++
  [Call.pthread_attr_setdetachstate DetachState.PTHREAD_CREATE_DETACHED,
   Call.pthread_attr_setschedpolicy SchedPolicy.SCHED_RR,
   Call.pthread_attr_setschedparam
     (corrected_pri (os.sched_get_priority_min SchedPolicy.SCHED_RR)
       (os.sched_get_priority_max SchedPolicy.SCHED_RR) priority),
   Call.pthread_attr_setstacksize stacksize,
   Call.pthread_create fn arg]

/-- The checks that stand between entry and the spawn call all pass. -/
def reaches_spawn (os : Os) (stacksize : Nat) (priority : Int) : Prop :=
  ¬ os.pthread_attr_init < 0 ∧
  ¬ os.pthread_attr_setdetachstate DetachState.PTHREAD_CREATE_DETACHED < 0 ∧
  ¬ os.pthread_attr_setschedpolicy SchedPolicy.SCHED_RR < 0 ∧
  ¬ os.pthread_attr_setschedparam
      (corrected_pri (os.sched_get_priority_min SchedPolicy.SCHED_RR)
        (os.sched_get_priority_max SchedPolicy.SCHED_RR) priority) < 0 ∧
  ¬ os.pthread_attr_setstacksize stacksize < 0

/-- As `os_ok`, but the probed thread is gone: `pthread_kill` answers `ESRCH`. -/
def os_gone : Os := { os_ok with pthread_kill := fun _ _ => 3 }

/-- As `os_ok`, but `pthread_attr_setstacksize` rejects a size under
`PTHREAD_STACK_MIN` with `EINVAL`, as glibc does. -/
def os_glibc : Os :=
  { os_ok with pthread_attr_setstacksize := fun s => if s < 16384 then 22 else 0 }

/-- As `os_ok`, but the system is out of resources: `pthread_create` returns
`EAGAIN` (11) and stores no identifier. -/
def os_eagain : Os := { os_ok with pthread_create := fun _ _ => (11, none) }

/-- The probe result decides the answer of `if_thread_exsit` for an identifier
that is not the sentinel. -/
theorem if_thread_exsit_of_ne (c : Consts) (os : Os) (tid : Nat)
    (h : c.INVALID_PTHREAD_TID ≠ tid) :
    if_thread_exsit c os tid =
      if c.ESRCH = os.pthread_kill tid 0 then
        (false, [Call.pthread_kill tid 0, Call.printf (Diag.task_is_not_exist tid)])
      else if c.EINVAL = os.pthread_kill tid 0 then
        (false, [Call.pthread_kill tid 0, Call.printf (Diag.send_invalid_signal tid)])
      else (true, [Call.pthread_kill tid 0]) := by
  unfold if_thread_exsit
  rw [if_neg h]
  dsimp only
  split_ifs <;> rfl

/-- `if_thread_exsit` never requests a cancellation. -/
theorem if_thread_exsit_no_cancel (c : Consts) (os : Os) (tid : Nat) :
    (if_thread_exsit c os tid).2.filter Call.isCancel = [] := by
  unfold if_thread_exsit
  dsimp only
  split_ifs <;> simp [Call.isCancel]

/-- C6: on the sentinel identifier `INVALID_PTHREAD_TID`, `if_thread_exsit`
returns false and makes no call at all: no signal probe, no diagnostic. -/
theorem if_thread_exsit_sentinel (c : Consts) (os : Os) :
    if_thread_exsit c os c.INVALID_PTHREAD_TID = (false, []) := by
  simp [if_thread_exsit]

/-- C7: for an identifier other than the sentinel, `if_thread_exsit` makes
exactly one probe, `pthread_kill(tid, 0)`; it returns false if and only if the
probe answered `ESRCH` or `EINVAL`, true for every other answer; and the number
of diagnostics printed is one when it returns false, none when it returns true. -/
theorem if_thread_exsit_probe (c : Consts) (os : Os) (tid : Nat)
    (h : tid ≠ c.INVALID_PTHREAD_TID) :
    (if_thread_exsit c os tid).2.filter Call.isKill = [Call.pthread_kill tid 0] ∧
    ((if_thread_exsit c os tid).1 = false ↔
      os.pthread_kill tid 0 = c.ESRCH ∨ os.pthread_kill tid 0 = c.EINVAL) ∧
    ((if_thread_exsit c os tid).1 = true ↔
      os.pthread_kill tid 0 ≠ c.ESRCH ∧ os.pthread_kill tid 0 ≠ c.EINVAL) ∧
    ((if_thread_exsit c os tid).2.countP Call.isPrintf =
      if (if_thread_exsit c os tid).1 then 0 else 1) := by
  rw [if_thread_exsit_of_ne c os tid (Ne.symm h)]
  by_cases h1 : c.ESRCH = os.pthread_kill tid 0
  · simp only [if_pos h1]
    simp [Call.isKill, Call.isPrintf, ← h1]
  · simp only [if_neg h1]
    have e1 : os.pthread_kill tid 0 ≠ c.ESRCH := fun e => h1 e.symm
    by_cases h2 : c.EINVAL = os.pthread_kill tid 0
    · simp only [if_pos h2]
      simp [Call.isKill, Call.isPrintf, ← h2]
    · simp only [if_neg h2]
      have e2 : os.pthread_kill tid 0 ≠ c.EINVAL := fun e => h2 e.symm
      simp [Call.isKill, Call.isPrintf, e1, e2]

/-- The probe theorem at identifier 5 in a library whose probe answers `ESRCH`:
5 is not the sentinel, and the conclusion holds there. -/
theorem if_thread_exsit_probe_witness :
    (5 : Nat) ≠ linux.INVALID_PTHREAD_TID ∧
    ((if_thread_exsit linux os_gone 5).2.filter Call.isKill = [Call.pthread_kill 5 0] ∧
    ((if_thread_exsit linux os_gone 5).1 = false ↔
      os_gone.pthread_kill 5 0 = linux.ESRCH ∨ os_gone.pthread_kill 5 0 = linux.EINVAL) ∧
    ((if_thread_exsit linux os_gone 5).1 = true ↔
      os_gone.pthread_kill 5 0 ≠ linux.ESRCH ∧ os_gone.pthread_kill 5 0 ≠ linux.EINVAL) ∧
    ((if_thread_exsit linux os_gone 5).2.countP Call.isPrintf =
      if (if_thread_exsit linux os_gone 5).1 then 0 else 1)) :=
  ⟨by decide, if_thread_exsit_probe linux os_gone 5 (by decide)⟩

/-- C8: `release_thread` asks `if_thread_exsit` first.  The thread counts as not
alive exactly for the sentinel identifier or a probe answer `ESRCH`/`EINVAL`;
then `release_thread` returns true and requests no cancellation.  Otherwise it
requests cancellation exactly once, of `tid`, and returns true if and only if
`pthread_cancel` returned 0.  So it returns false only for a thread reported
alive whose cancellation request was rejected. -/
theorem release_thread_spec (c : Consts) (os : Os) (tid : Nat) :
    ((if_thread_exsit c os tid).1 = false ↔
      tid = c.INVALID_PTHREAD_TID ∨ os.pthread_kill tid 0 = c.ESRCH ∨
        os.pthread_kill tid 0 = c.EINVAL) ∧
    ((if_thread_exsit c os tid).1 = false →
      (release_thread c os tid).1 = true ∧
      (release_thread c os tid).2.filter Call.isCancel = [] ∧
      (release_thread c os tid).2 = (if_thread_exsit c os tid).2) ∧
    ((if_thread_exsit c os tid).1 = true →
      (release_thread c os tid).2.filter Call.isCancel = [Call.pthread_cancel tid] ∧
      ((release_thread c os tid).1 = true ↔ os.pthread_cancel tid = 0)) ∧
    ((release_thread c os tid).1 = false →
      (if_thread_exsit c os tid).1 = true ∧ os.pthread_cancel tid ≠ 0) := by
  refine ⟨?_, ?_, ?_, ?_⟩
  · by_cases h : c.INVALID_PTHREAD_TID = tid
    · subst h
      simp [if_thread_exsit]
    · rw [if_thread_exsit_of_ne c os tid h]
      have h' : tid ≠ c.INVALID_PTHREAD_TID := fun e => h e.symm
      split_ifs with h1 h2
      · simp [← h1]
      · simp [← h2]
      · have e1 : os.pthread_kill tid 0 ≠ c.ESRCH := fun e => h1 e.symm
        have e2 : os.pthread_kill tid 0 ≠ c.EINVAL := fun e => h2 e.symm
        simp [h', e1, e2]
  · intro ha
    have hc := if_thread_exsit_no_cancel c os tid
    simp [release_thread, ha, hc]
  · intro ha
    have hc := if_thread_exsit_no_cancel c os tid
    simp [release_thread, ha, hc, Call.isCancel]
  · intro hr
    by_cases ha : (if_thread_exsit c os tid).1 = true
    · refine ⟨ha, ?_⟩
      intro h0
      simp [release_thread, ha, h0] at hr
    · simp [release_thread, ha] at hr

/-! ## Thread creation -/

/-- The value of `_pri` under a range with `min_pri ≤ max_pri`. -/
theorem corrected_pri_cases (min_pri max_pri priority : Int) (h : min_pri ≤ max_pri) :
    (priority < min_pri → corrected_pri min_pri max_pri priority = min_pri) ∧
    (max_pri < priority → corrected_pri min_pri max_pri priority = max_pri) ∧
    (min_pri ≤ priority → priority ≤ max_pri →
      corrected_pri min_pri max_pri priority = priority) ∧
    min_pri ≤ corrected_pri min_pri max_pri priority ∧
    corrected_pri min_pri max_pri priority ≤ max_pri := by
  unfold corrected_pri
  refine ⟨?_, ?_, ?_, ?_, ?_⟩
  · intro h1
    rw [if_pos (by omega)]
  · intro h1
    rw [if_neg (by omega), if_pos h1]
  · intro h1 h2
    rw [if_neg (by omega), if_neg (by omega)]
  · split_ifs <;> omega
  · split_ifs <;> omega

/-- The scheduling parameter is set at most once, and with `_pri`. -/
theorem create_thread_setschedparam (c : Consts) (os : Os) (tid : Option Nat)
    (stacksize : Nat) (priority : Int) (fn arg : Nat) (q : Int)
    (hq : Call.pthread_attr_setschedparam q ∈
      (create_thread c os tid stacksize priority fn arg).trace) :
    q = corrected_pri (os.sched_get_priority_min SchedPolicy.SCHED_RR)
      (os.sched_get_priority_max SchedPolicy.SCHED_RR) priority := by
  unfold create_thread at hq
  dsimp only at hq
  split_ifs at hq <;> simp [create_thread_head] at hq <;> exact hq

/-- A path that passes the five checks before the spawn starts with `spawn_path`. -/
theorem create_thread_trace_of_reaches (c : Consts) (os : Os) (tid : Option Nat)
    (stacksize : Nat) (priority : Int) (fn arg : Nat)
    (h : reaches_spawn os stacksize priority) :
    (create_thread c os tid stacksize priority fn arg).trace =
      spawn_path os stacksize priority fn arg ++
        (if (os.pthread_create fn arg).1 < 0 then
          [Call.printf Diag.pthread_create_failed, Call.pthread_attr_destroy]
        else [Call.pthread_attr_destroy]) := by
  obtain ⟨h1, h2, h3, h4, h5⟩ := h
  unfold create_thread
  dsimp only
  rw [if_neg h1, if_neg h2, if_neg h3, if_neg h4, if_neg h5]
  split_ifs <;> simp [spawn_path, create_thread_head]

/-- A path on which one of the five checks before the spawn fails makes no
spawn call. -/
theorem create_thread_no_spawn (c : Consts) (os : Os) (tid : Option Nat)
    (stacksize : Nat) (priority : Int) (fn arg : Nat)
    (h : ¬ reaches_spawn os stacksize priority) :
    (create_thread c os tid stacksize priority fn arg).trace.filter Call.isCreate = [] := by
  unfold reaches_spawn at h
  unfold create_thread
  dsimp only
  split_ifs with h1 h2 h3 h4 h5 h6
  · simp [create_thread_head, Call.isCreate]
  · simp [create_thread_head, Call.isCreate]
  · simp [create_thread_head, Call.isCreate]
  · simp [create_thread_head, Call.isCreate]
  · simp [create_thread_head, Call.isCreate]
  · exact absurd ⟨h1, h2, h3, h4, h5⟩ h
  · exact absurd ⟨h1, h2, h3, h4, h5⟩ h

/-- C2: under a round-robin range with `min ≤ max`, the priority `create_thread`
puts in the scheduling parameter (the argument of every
`pthread_attr_setschedparam` call it makes) is `min` for a request below `min`,
`max` for a request above `max`, the request itself inside the range, and so
lies in the range; the call is made, once, whenever the three checks before it
pass. -/
theorem create_thread_priority (c : Consts) (os : Os) (tid : Option Nat)
    (stacksize : Nat) (priority : Int) (fn arg : Nat)
    (h : os.sched_get_priority_min SchedPolicy.SCHED_RR ≤
      os.sched_get_priority_max SchedPolicy.SCHED_RR) :
    (∀ q, Call.pthread_attr_setschedparam q ∈
        (create_thread c os tid stacksize priority fn arg).trace →
      (priority < os.sched_get_priority_min SchedPolicy.SCHED_RR →
        q = os.sched_get_priority_min SchedPolicy.SCHED_RR) ∧
      (os.sched_get_priority_max SchedPolicy.SCHED_RR < priority →
        q = os.sched_get_priority_max SchedPolicy.SCHED_RR) ∧
      (os.sched_get_priority_min SchedPolicy.SCHED_RR ≤ priority →
        priority ≤ os.sched_get_priority_max SchedPolicy.SCHED_RR → q = priority) ∧
      os.sched_get_priority_min SchedPolicy.SCHED_RR ≤ q ∧
      q ≤ os.sched_get_priority_max SchedPolicy.SCHED_RR) ∧
    (¬ os.pthread_attr_init < 0 →
      ¬ os.pthread_attr_setdetachstate DetachState.PTHREAD_CREATE_DETACHED < 0 →
      ¬ os.pthread_attr_setschedpolicy SchedPolicy.SCHED_RR < 0 →
      ∃ q, (create_thread c os tid stacksize priority fn arg).trace.filter
        Call.isSetschedparam = [Call.pthread_attr_setschedparam q]) := by
  constructor
  · intro q hq
    rw [create_thread_setschedparam c os tid stacksize priority fn arg q hq]
    exact corrected_pri_cases _ _ priority h
  · intro h1 h2 h3
    refine ⟨corrected_pri (os.sched_get_priority_min SchedPolicy.SCHED_RR)
      (os.sched_get_priority_max SchedPolicy.SCHED_RR) priority, ?_⟩
    unfold create_thread
    dsimp only
    rw [if_neg h1, if_neg h2, if_neg h3]
    split_ifs <;> simp [create_thread_head, Call.isSetschedparam]

/-- The priority theorem in the library `os_ok` (range 1 to 99) for a request
of 200, far above the maximum. -/
theorem create_thread_priority_witness :
    os_ok.sched_get_priority_min SchedPolicy.SCHED_RR ≤
      os_ok.sched_get_priority_max SchedPolicy.SCHED_RR ∧
    Call.pthread_attr_setschedparam 99 ∈ (create_thread linux os_ok (some 0) 0 200 1 2).trace ∧
    (99 : Int) = os_ok.sched_get_priority_max SchedPolicy.SCHED_RR :=
  ⟨by decide, by decide,
    ((create_thread_priority linux os_ok (some 0) 0 200 1 2 (by decide)).1 99 (by decide)).2.1
      (by decide)⟩

/-- The flag `create_thread` returns: true exactly when none of the six checks
saw a negative return value. -/
theorem create_thread_ret (c : Consts) (os : Os) (tid : Option Nat)
    (stacksize : Nat) (priority : Int) (fn arg : Nat) :
    (create_thread c os tid stacksize priority fn arg).ret = true ↔
      reaches_spawn os stacksize priority ∧ ¬ (os.pthread_create fn arg).1 < 0 := by
  unfold reaches_spawn create_thread
  dsimp only
  split_ifs <;> simp_all

/-- The content of `*tid` after the call. -/
theorem create_thread_tid (c : Consts) (os : Os) (tid : Option Nat)
    (stacksize : Nat) (priority : Int) (fn arg : Nat) :
    (create_thread c os tid stacksize priority fn arg).tid =
      if (create_thread c os tid stacksize priority fn arg).ret then
        tid.map (fun _ => (os.pthread_create fn arg).2.getD c.INVALID_PTHREAD_TID)
      else tid := by
  unfold create_thread
  dsimp only
  split_ifs <;> first | rfl | (cases tid <;> cases (os.pthread_create fn arg).2 <;> simp_all)

/-- C3, evaluated: `create_thread` returns true exactly when no check saw a
negative return value, so an error reported by a positive code passes every
check.  In `os_eagain` the spawn fails with `EAGAIN` (11), no thread exists, and
`create_thread` still returns true and stores the sentinel in `*tid`; in
`os_glibc` the stack size 0 is rejected with `EINVAL` (22) and `create_thread`
goes on to spawn and returns true. -/
theorem create_thread_positive_error_code :
    (∀ (c : Consts) (os : Os) (tid : Option Nat) (stacksize : Nat) (priority : Int)
        (fn arg : Nat),
      (create_thread c os tid stacksize priority fn arg).ret = true ↔
        (¬ os.pthread_attr_init < 0 ∧
         ¬ os.pthread_attr_setdetachstate DetachState.PTHREAD_CREATE_DETACHED < 0 ∧
         ¬ os.pthread_attr_setschedpolicy SchedPolicy.SCHED_RR < 0 ∧
         ¬ os.pthread_attr_setschedparam
            (corrected_pri (os.sched_get_priority_min SchedPolicy.SCHED_RR)
              (os.sched_get_priority_max SchedPolicy.SCHED_RR) priority) < 0 ∧
         ¬ os.pthread_attr_setstacksize stacksize < 0) ∧
        ¬ (os.pthread_create fn arg).1 < 0) ∧
    os_eagain.pthread_create 1 2 = (11, none) ∧
    create_thread linux os_eagain (some 5) 16384 10 1 2 =
      ⟨true, some 0,
        [Call.sched_get_priority_min SchedPolicy.SCHED_RR,
         Call.sched_get_priority_max SchedPolicy.SCHED_RR,
         Call.pthread_attr_init,
         Call.pthread_attr_setdetachstate DetachState.PTHREAD_CREATE_DETACHED,
         Call.pthread_attr_setschedpolicy SchedPolicy.SCHED_RR,
         Call.pthread_attr_setschedparam 10,
         Call.pthread_attr_setstacksize 16384,
         Call.pthread_create 1 2,
         Call.pthread_attr_destroy]⟩ ∧
    os_glibc.pthread_attr_setstacksize 0 = 22 ∧
    (create_thread linux os_glibc (some 5) 0 10 1 2).ret = true :=
  ⟨fun c os tid stacksize priority fn arg =>
      create_thread_ret c os tid stacksize priority fn arg,
    by decide, by decide, by decide, by decide⟩

/-- What `create_thread` does to `*tid`: on a false return it is untouched and
either no spawn call was made or the spawn call returned a non-zero value; it
changes only on the path that returns true and only for a non-null `tid`,
where it receives the content of `_tid` after the one spawn call. -/
theorem create_thread_tid_cases (c : Consts) (os : Os) (tid : Option Nat)
    (stacksize : Nat) (priority : Int) (fn arg : Nat) :
    ((create_thread c os tid stacksize priority fn arg).ret = false →
      (create_thread c os tid stacksize priority fn arg).tid = tid ∧
      ((create_thread c os tid stacksize priority fn arg).trace.filter Call.isCreate = [] ∨
        (os.pthread_create fn arg).1 ≠ 0)) ∧
    ((create_thread c os tid stacksize priority fn arg).tid ≠ tid →
      (create_thread c os tid stacksize priority fn arg).ret = true ∧ tid ≠ none) ∧
    ((create_thread c os tid stacksize priority fn arg).ret = true →
      (create_thread c os tid stacksize priority fn arg).tid =
        tid.map (fun _ => (os.pthread_create fn arg).2.getD c.INVALID_PTHREAD_TID) ∧
      (create_thread c os tid stacksize priority fn arg).trace.filter Call.isCreate =
        [Call.pthread_create fn arg]) := by
  have ht := create_thread_tid c os tid stacksize priority fn arg
  have hr := create_thread_ret c os tid stacksize priority fn arg
  refine ⟨?_, ?_, ?_⟩
  · intro hf
    rw [hf] at ht
    refine ⟨by simpa using ht, ?_⟩
    by_cases hs : reaches_spawn os stacksize priority
    · right
      have hneg : (os.pthread_create fn arg).1 < 0 := by
        by_contra hn
        have := hr.2 ⟨hs, hn⟩
        rw [hf] at this
        exact Bool.noConfusion this
      omega
    · left
      exact create_thread_no_spawn c os tid stacksize priority fn arg hs
  · intro hne
    cases hret : (create_thread c os tid stacksize priority fn arg).ret
    · rw [hret] at ht
      exact absurd (by simpa using ht) hne
    · refine ⟨rfl, ?_⟩
      intro hnone
      rw [hret, hnone] at ht
      apply hne
      rw [hnone]
      simpa using ht
  · intro htrue
    rw [htrue] at ht
    refine ⟨by simpa using ht, ?_⟩
    obtain ⟨hs, hn⟩ := hr.1 htrue
    rw [create_thread_trace_of_reaches c os tid stacksize priority fn arg hs, if_neg hn]
    simp [spawn_path, create_thread_head, Call.isCreate]

/-- C4, evaluated: on a false return `*tid` is untouched and no thread was
created, and `*tid` is written only on the path that returns true and only for
a non-null `tid`; but what is written there is the content of `_tid` after the
spawn call, whether or not the spawn produced an identifier.  In `os_eagain`
the spawn fails with `EAGAIN` (11) and stores nothing, no thread exists, and
`create_thread` returns true and overwrites the caller's `*tid` (5) with the
sentinel `INVALID_PTHREAD_TID`. -/
theorem create_thread_tid_after_failed_spawn :
    (∀ (c : Consts) (os : Os) (tid : Option Nat) (stacksize : Nat) (priority : Int)
        (fn arg : Nat),
      ((create_thread c os tid stacksize priority fn arg).ret = false →
        (create_thread c os tid stacksize priority fn arg).tid = tid ∧
        ((create_thread c os tid stacksize priority fn arg).trace.filter Call.isCreate = [] ∨
          (os.pthread_create fn arg).1 ≠ 0)) ∧
      ((create_thread c os tid stacksize priority fn arg).tid ≠ tid →
        (create_thread c os tid stacksize priority fn arg).ret = true ∧ tid ≠ none) ∧
      ((create_thread c os tid stacksize priority fn arg).ret = true →
        (create_thread c os tid stacksize priority fn arg).tid =
          tid.map (fun _ => (os.pthread_create fn arg).2.getD c.INVALID_PTHREAD_TID) ∧
        (create_thread c os tid stacksize priority fn arg).trace.filter Call.isCreate =
          [Call.pthread_create fn arg])) ∧
    os_eagain.pthread_create 1 2 = (11, none) ∧
    (create_thread linux os_eagain (some 5) 16384 10 1 2).ret = true ∧
    (create_thread linux os_eagain (some 5) 16384 10 1 2).tid =
      some linux.INVALID_PTHREAD_TID ∧
    (create_thread linux os_eagain (some 5) 16384 10 1 2).tid ≠ some 5 :=
  ⟨fun c os tid stacksize priority fn arg =>
      create_thread_tid_cases c os tid stacksize priority fn arg,
    by decide, by decide, by decide, by decide⟩

/-- C1, evaluated: the argument of the stack-size configuration call is always
the requested size itself, never the corrected `_stacksize`.  For a request of
0 the corrected value is `PTHREAD_STACK_MIN` (16384), the call receives 0, and
`create_thread` goes on and returns true although the call answered `EINVAL`. -/
theorem create_thread_stacksize_uncorrected :
    (∀ (c : Consts) (os : Os) (tid : Option Nat) (stacksize : Nat) (priority : Int)
        (fn arg s : Nat),
      Call.pthread_attr_setstacksize s ∈
        (create_thread c os tid stacksize priority fn arg).trace → s = stacksize) ∧
    corrected_stacksize linux 0 = 16384 ∧
    (create_thread linux os_glibc (some 5) 0 200 1 2).trace.filter Call.isSetstacksize =
      [Call.pthread_attr_setstacksize 0] ∧
    (create_thread linux os_glibc (some 5) 0 200 1 2).ret = true := by
  refine ⟨?_, by decide, by decide, by decide⟩
  intro c os tid stacksize priority fn arg s hs
  unfold create_thread at hs
  dsimp only at hs
  split_ifs at hs <;> simp [create_thread_head] at hs <;> exact hs

/-! ## Thread name -/

/-- The array and what lies past it after an unbounded `sprintf` of `s`. -/
theorem sprintf_memory (c : Consts) (s : List Char) :
    (sprintf c s).1 ++ (sprintf c s).2 =
      (s ++ [Char.ofNat 0]) ++ List.replicate (c.MAX_THREAD_NAME_LEN - s.length) (Char.ofNat 0) := by
  simp only [sprintf]
  by_cases hlen : (s ++ [Char.ofNat 0]).length ≤ c.MAX_THREAD_NAME_LEN + 1
  · rw [List.take_of_length_le hlen, List.drop_of_length_le hlen]
    simp
  · have h0 : c.MAX_THREAD_NAME_LEN + 1 - (s ++ [Char.ofNat 0]).length = 0 := by omega
    have h1 : c.MAX_THREAD_NAME_LEN - s.length = 0 := by
      simp at hlen
      omega
    rw [h0, h1]
    simp

/-- A string without NUL, followed by a NUL, is read back whole. -/
theorem c_str_append_nul (s rest : List Char) (h : ∀ ch ∈ s, ch ≠ Char.ofNat 0) :
    c_str ((s ++ [Char.ofNat 0]) ++ rest) = s := by
  induction s with
  | nil => simp [c_str, List.takeWhile]
  | cons a t ih =>
    have ha : a ≠ Char.ofNat 0 := h a (List.mem_cons_self a t)
    have ht : ∀ ch ∈ t, ch ≠ Char.ofNat 0 := fun ch hch => h ch (List.mem_cons_of_mem a hch)
    have ih2 := ih ht
    have hb : (a != Char.ofNat 0) = true := by simpa using ha
    unfold c_str at ih2 ⊢
    simp only [List.cons_append, List.append_assoc] at ih2 ⊢
    rw [List.takeWhile_cons, hb]
    simp only [List.nil_append] at ih2
    simp [ih2]

/-- C9, evaluated: `set_thread_name` stores the whole name and its terminating
NUL, whatever the length: the number of bytes that land past the end of the
`MAX_THREAD_NAME_LEN + 1` byte array is the number of characters by which the
name exceeds `MAX_THREAD_NAME_LEN`, and `prctl` is handed a pointer to the whole
name.  With a limit of 15 a name of 16 characters puts its NUL past the array
and reaches `prctl` with all 16 characters. -/
theorem set_thread_name_unbounded :
    (∀ (c : Consts) (os : Os) (name : List Char),
      (set_thread_name c os (some name)).beyond.length =
        name.length - c.MAX_THREAD_NAME_LEN ∧
      (set_thread_name c os (some name)).pname.length = c.MAX_THREAD_NAME_LEN + 1 ∧
      (set_thread_name c os (some name)).pname ++ (set_thread_name c os (some name)).beyond =
        (name ++ [Char.ofNat 0]) ++
          List.replicate (c.MAX_THREAD_NAME_LEN - name.length) (Char.ofNat 0) ∧
      ((∀ ch ∈ name, ch ≠ Char.ofNat 0) →
        (set_thread_name c os (some name)).trace =
          [Call.pthread_self, Call.prctl_PR_SET_NAME name])) ∧
    linux.MAX_THREAD_NAME_LEN = 15 ∧
    set_thread_name linux os_ok (some (List.replicate 16 'a')) =
      ⟨List.replicate 16 'a', [Char.ofNat 0],
        [Call.pthread_self, Call.prctl_PR_SET_NAME (List.replicate 16 'a')]⟩ := by
  refine ⟨?_, by decide, by decide⟩
  intro c os name
  refine ⟨?_, ?_, ?_, ?_⟩
  · simp [set_thread_name, sprintf]
  · simp [set_thread_name, sprintf]
    omega
  · exact sprintf_memory c name
  · intro h
    simp only [set_thread_name]
    rw [sprintf_memory c name, c_str_append_nul name _ h]

end UtilPthread
